import Mathlib

/-!
Verification of the dev-scheduler task orchestrator.

The development shallowly embeds the Python sources of the orchestrator:

* `models.py`      — the 14-stage `TaskStatus` enum, the trigger set, the
  trigger-transition table `AI_TRANSITIONS` and the forward-transition table
  `VALID_TRANSITIONS`, and the `Task` record.
* `claude_runner.py` — `ClaudeRunner`: project-path validation
  (`_resolve_project_path`), prompt construction, and `_run_claude`, which
  spawns the external agent process and normalises its behaviour into a
  `ClaudeResult`.
* `transitions.py` — `TaskProcessor`: `process_task` and `_run_with_retries`.
* `notion_client.py` — the store wrapper: `update_task_status`, `add_comment`,
  `update_task_property`, and page parsing (`_page_to_task`,
  `_extract_rich_text`) with batch filtering in `query_tasks_by_status`.
* `scheduler.py`   — the serial per-batch loop of `_poll_cycle` with its
  stop-flag check.

Effectful code is embedded in a state-plus-exception monad `M` whose state is
the trace of externally visible events (store writes, agent invocations,
process spawns, sleeps).  Python exceptions are the `Except` layer; a Python
`try/except` is `tryCatchM`.  External nondeterminism (the filesystem, the
Notion service, the subprocess) is passed in as explicit environments, exactly
as the Python objects are injected into `TaskProcessor` and `ClaudeRunner`.
-/

namespace DevScheduler

/-- The 14-stage workflow status for development tasks (`models.TaskStatus`). -/
inductive TaskStatus
  | REQUIREMENT
  | DESIGN_IN_PROGRESS
  | TO_PLAN
  | PLANNING
  | PLANNED
  | READY_TO_IMPLEMENT
  | IMPLEMENT_IN_PROGRESS
  | IMPLEMENT_DONE
  | READY_TO_REVIEW
  | REVIEW_IN_PROGRESS
  | REVIEW_DONE
  | READY_TO_RELEASE
  | RELEASE_IN_PROGRESS
  | RELEASE_DONE
  deriving DecidableEq, Repr

namespace TaskStatus

/-- The external string token of each stage (the `str`-enum value). -/
def value : TaskStatus → String
  | REQUIREMENT => "Requirement"
  | DESIGN_IN_PROGRESS => "DesignInProgress"
  | TO_PLAN => "ToPlan"
  | PLANNING => "Planning"
  | PLANNED => "Planned"
  | READY_TO_IMPLEMENT => "ReadyToImplement"
  | IMPLEMENT_IN_PROGRESS => "ImplementInProgress"
  | IMPLEMENT_DONE => "ImplementDone"
  | READY_TO_REVIEW => "ReadyToReview"
  | REVIEW_IN_PROGRESS => "ReviewInProgress"
  | REVIEW_DONE => "ReviewDone"
  | READY_TO_RELEASE => "ReadyToRelease"
  | RELEASE_IN_PROGRESS => "ReleaseInProgress"
  | RELEASE_DONE => "ReleaseDone"

/-- The enum constructor `TaskStatus(s)`: `some` on the 14 known tokens,
`none` models the `ValueError` raised on any other string. -/
def fromString (s : String) : Option TaskStatus :=
  if s = "Requirement" then some REQUIREMENT
  else if s = "DesignInProgress" then some DESIGN_IN_PROGRESS
  else if s = "ToPlan" then some TO_PLAN
  else if s = "Planning" then some PLANNING
  else if s = "Planned" then some PLANNED
  else if s = "ReadyToImplement" then some READY_TO_IMPLEMENT
  else if s = "ImplementInProgress" then some IMPLEMENT_IN_PROGRESS
  else if s = "ImplementDone" then some IMPLEMENT_DONE
  else if s = "ReadyToReview" then some READY_TO_REVIEW
  else if s = "ReviewInProgress" then some REVIEW_IN_PROGRESS
  else if s = "ReviewDone" then some REVIEW_DONE
  else if s = "ReadyToRelease" then some READY_TO_RELEASE
  else if s = "ReleaseInProgress" then some RELEASE_IN_PROGRESS
  else if s = "ReleaseDone" then some RELEASE_DONE
  else none

end TaskStatus

open TaskStatus

/-- The fixed declaration order of the 14 stages in `models.py`. -/
def stageOrder : List TaskStatus :=
  [REQUIREMENT, DESIGN_IN_PROGRESS, TO_PLAN, PLANNING, PLANNED,
   READY_TO_IMPLEMENT, IMPLEMENT_IN_PROGRESS, IMPLEMENT_DONE,
   READY_TO_REVIEW, REVIEW_IN_PROGRESS, REVIEW_DONE,
   READY_TO_RELEASE, RELEASE_IN_PROGRESS, RELEASE_DONE]

/-- Statuses the scheduler picks up for AI processing
(`models.AI_TRIGGER_STATUSES`). -/
def AI_TRIGGER_STATUSES : List TaskStatus := [TO_PLAN, READY_TO_IMPLEMENT]

/-- The trigger-transition table `models.AI_TRANSITIONS`:
trigger status to its (in-progress status, done status) pair.
A Python dict lookup `AI_TRANSITIONS.get(s)` is `AI_TRANSITIONS s`. -/
def AI_TRANSITIONS : TaskStatus → Option (TaskStatus × TaskStatus)
  | TO_PLAN => some (PLANNING, PLANNED)
  | READY_TO_IMPLEMENT => some (IMPLEMENT_IN_PROGRESS, IMPLEMENT_DONE)
  | _ => none

/-- The forward-transition table `models.VALID_TRANSITIONS`. -/
def VALID_TRANSITIONS : TaskStatus → Option TaskStatus
  | REQUIREMENT => some DESIGN_IN_PROGRESS
  | DESIGN_IN_PROGRESS => some TO_PLAN
  | TO_PLAN => some PLANNING
  | PLANNING => some PLANNED
  | PLANNED => some READY_TO_IMPLEMENT
  | READY_TO_IMPLEMENT => some IMPLEMENT_IN_PROGRESS
  | IMPLEMENT_IN_PROGRESS => some IMPLEMENT_DONE
  | IMPLEMENT_DONE => some READY_TO_REVIEW
  | READY_TO_REVIEW => some REVIEW_IN_PROGRESS
  | REVIEW_IN_PROGRESS => some REVIEW_DONE
  | REVIEW_DONE => some READY_TO_RELEASE
  | READY_TO_RELEASE => some RELEASE_IN_PROGRESS
  | RELEASE_IN_PROGRESS => some RELEASE_DONE
  | RELEASE_DONE => none

/-- A task record from the Notion database (`models.Task`).  The Python
`raw_properties` dict is not modelled: no orchestrator code reads it. -/
structure Task where
  page_id : String
  name : String
  status : TaskStatus
  description : String := ""
  project_path : String := ""
  repository : String := ""
  branch : String := ""
  plan_output : String := ""
  error : String := ""
  session_id : String := ""
  deriving DecidableEq, Repr

/-- Which of the two agent entry points an attempt goes through. -/
inductive AgentKind
  | planning
  | implementation
  deriving DecidableEq, Repr

/-- Externally visible effects of the orchestrator: store writes, adapter
invocations, reaching the defensive unknown-stage branch, spawning the agent
subprocess, and backoff sleeps. -/
inductive Event
  | updateStatus (pageId : String) (status : TaskStatus)
  | updateProp (pageId : String) (propertyName : String) (value : String)
  | addComment (pageId : String) (content : String)
  | agentCall (kind : AgentKind) (attempt : Nat)
  | unknownStage (attempt : Nat)
  | spawnAgent (cwd : Option String)
  | sleep (seconds : ℚ)
  deriving DecidableEq, Repr

/-- Python exceptions that the orchestrator raises or propagates. -/
inductive PyErr
  | valueError (msg : String)
  | notionError (msg : String)
  deriving DecidableEq, Repr

/-- The effect monad: a computation appends events to the trace and may end in
an uncaught Python exception.  The trace survives an exception, so one can
state which writes the store had received when a call raised. -/
def M (α : Type) : Type := List Event → Except PyErr α × List Event

variable {α β : Type}

/-- Return a value without effects. -/
def M.pure (a : α) : M α := fun tr => (Except.ok a, tr)

/-- Sequencing: an exception aborts the rest of the computation. -/
def M.bind (x : M α) (f : α → M β) : M β := fun tr =>
  match x tr with
  | (Except.ok a, tr') => f a tr'
  | (Except.error e, tr') => (Except.error e, tr')

instance : Monad M where
  pure := M.pure
  bind := M.bind

/-- Record one externally visible event. -/
def emitM (e : Event) : M Unit := fun tr => (Except.ok (), tr ++ [e])

/-- Raise a Python exception. -/
def raiseM (e : PyErr) : M α := fun tr => (Except.error e, tr)

/-- A Python `try/except` block. -/
def tryCatchM (x : M α) (handler : PyErr → M α) : M α := fun tr =>
  match x tr with
  | (Except.ok a, tr') => (Except.ok a, tr')
  | (Except.error e, tr') => handler e tr'

/-- Lift an exception-or-value into the effect monad. -/
def liftE (x : Except PyErr α) : M α := fun tr => (x, tr)

/-- Behaviour of the external Notion service: whether each kind of write call
raises.  This stands for the injected `notion_client.Client`. -/
structure NotionEnv where
  updateStatusFails : String → TaskStatus → Bool
  addCommentFails : String → String → Bool
  updatePropFails : String → String → String → Bool

/-- `NotionTaskClient.update_task_status`: one `pages.update` call setting the
Status select property.  The event records the call being issued. -/
def update_task_status (env : NotionEnv) (pageId : String) (newStatus : TaskStatus) :
    M Unit := fun tr =>
  let tr' := tr ++ [Event.updateStatus pageId newStatus]
  if env.updateStatusFails pageId newStatus then
    (Except.error (PyErr.notionError "pages.update failed"), tr')
  else (Except.ok (), tr')

/-- `NotionTaskClient.add_comment`: truncates the content to 2000 characters
(the Notion limit) and issues one `comments.create` call. -/
def add_comment (env : NotionEnv) (pageId : String) (content : String) :
    M Unit := fun tr =>
  let tr' := tr ++ [Event.addComment pageId (content.take 2000)]
  if env.addCommentFails pageId content then
    (Except.error (PyErr.notionError "comments.create failed"), tr')
  else (Except.ok (), tr')

/-- `NotionTaskClient.update_task_property`: truncates the value to 2000
characters and issues one `pages.update` call on a rich-text property. -/
def update_task_property (env : NotionEnv) (pageId propertyName value : String) :
    M Unit := fun tr =>
  let tr' := tr ++ [Event.updateProp pageId propertyName (value.take 2000)]
  if env.updatePropFails pageId propertyName value then
    (Except.error (PyErr.notionError "pages.update failed"), tr')
  else (Except.ok (), tr')

/-- Result of one Claude Code CLI invocation (`claude_runner.ClaudeResult`). -/
structure ClaudeResult where
  success : Bool
  output : String
  session_id : String := ""
  error : String := ""
  deriving DecidableEq, Repr

/-- The filesystem as seen by `pathlib`: `Path(p).resolve()` and
`Path(p).is_dir()`. -/
structure FileSystemEnv where
  resolve : String → String
  isDir : String → Bool

/-- The check `"\x00" in path_str` of `_resolve_project_path`. -/
def containsNullByte (s : String) : Bool := s.contains (Char.ofNat 0)

/-- `ClaudeRunner._resolve_project_path`: empty path resolves to no working
directory; otherwise the resolved path must be an existing directory with no
null bytes — the `Except.error` cases are the `ValueError`s it raises. -/
def resolveProjectPath (fs : FileSystemEnv) (project_path : String) :
    Except String (Option String) :=
  if project_path = "" then Except.ok none
  else
    let resolved := fs.resolve project_path
    if ¬ fs.isDir resolved then
      Except.error ("Project path does not exist or is not a directory: " ++ resolved)
    else if containsNullByte resolved then
      Except.error "Project path contains null bytes"
    else Except.ok (some resolved)

/-- What the spawned agent process writes to stdout: either text that fails
`json.loads`, or a JSON object with optional `result` and `session_id` keys. -/
inductive AgentStdout
  | notJson (raw : String)
  | jsonObj (result : Option String) (session_id : Option String) (raw : String)
  deriving DecidableEq, Repr

/-- Behaviour of one `subprocess.run` call on the agent command: it completes
with an exit code, stdout and stderr, or raises `TimeoutExpired`, or raises
`FileNotFoundError`. -/
inductive SubprocessBehavior
  | completes (returncode : Int) (stdout : AgentStdout) (stderr : String)
  | timesOut
  | notFound
  deriving DecidableEq, Repr

/-- The `Settings` fields consumed by `ClaudeRunner`. -/
structure RunnerSettings where
  claude_command : String := "claude"
  claude_timeout : Nat := 600
  claude_allowed_tools : String := "Read,Write,Edit,Bash,Glob,Grep"

/-- `ClaudeRunner._run_claude`: validate the project path (an invalid path
raises `ValueError` before any process is spawned), spawn the agent with the
resolved working directory, and normalise every subprocess behaviour into a
`ClaudeResult` — timeout, missing executable and non-zero exit become failure
results; any zero-exit output becomes a success result, with the structured
fields extracted when stdout parses as JSON. -/
def run_claude (s : RunnerSettings) (fs : FileSystemEnv) (sb : SubprocessBehavior)
    (prompt : String) (project_path : String) (session_id : String := "") :
    M ClaudeResult := fun tr =>
  let _ := prompt
  let _ := session_id
  match resolveProjectPath fs project_path with
  | Except.error m => (Except.error (PyErr.valueError m), tr)
  | Except.ok cwd =>
    let tr' := tr ++ [Event.spawnAgent cwd]
    match sb with
    | SubprocessBehavior.timesOut =>
        let msg := "Claude Code timed out after " ++ toString s.claude_timeout ++ "s"
        (Except.ok { success := false, output := "", error := msg }, tr')
    | SubprocessBehavior.notFound =>
        let msg := "Claude Code CLI not found: " ++ s.claude_command
        (Except.ok { success := false, output := "", error := msg }, tr')
    | SubprocessBehavior.completes rc stdout stderr =>
        if rc ≠ 0 then
          let errorMsg := if stderr = "" then "Claude exited with code " ++ toString rc else stderr
          (Except.ok { success := false, output := "", error := errorMsg }, tr')
        else
          match stdout with
          | AgentStdout.notJson raw => (Except.ok { success := true, output := raw }, tr')
          | AgentStdout.jsonObj result sid raw =>
              (Except.ok { success := true, output := result.getD raw, session_id := sid.getD "" }, tr')

/-- `ClaudeRunner._build_planning_prompt`. -/
def build_planning_prompt (task : Task) : String :=
  "You are planning the implementation for a development task.\n\n## Task: " ++
  task.name ++ "\n\n## Description:\n" ++ task.description ++
  "\n\n## Instructions:\n1. Analyze the requirements described above\n" ++
  "2. Create a detailed implementation plan\n" ++
  "3. Identify the files that need to be created or modified\n" ++
  "4. Outline the step-by-step approach\n" ++
  "5. Note any potential risks or dependencies\n\n" ++
  "Output a clear, structured implementation plan in markdown format."

/-- `ClaudeRunner._build_implementation_prompt`. -/
def build_implementation_prompt (task : Task) : String :=
  let planSection :=
    if task.plan_output ≠ "" then "## Plan:\n" ++ task.plan_output ++ "\n\n" else ""
  "You are implementing a development task.\n\n## Task: " ++ task.name ++
  "\n\n## Description:\n" ++ task.description ++ "\n\n" ++ planSection ++
  "## Instructions:\n1. Implement the task according to the description and plan above\n" ++
  "2. Write clean, well-structured code\n" ++
  "3. Follow existing code conventions in the project\n" ++
  "4. Add appropriate error handling\n" ++
  "5. Ensure the implementation is complete and functional\n\n" ++
  "Implement the changes now."

/-- `ClaudeRunner.run_planning`. -/
def run_planning (s : RunnerSettings) (fs : FileSystemEnv) (sb : SubprocessBehavior)
    (task : Task) : M ClaudeResult :=
  run_claude s fs sb (build_planning_prompt task) task.project_path task.session_id

/-- `ClaudeRunner.run_implementation`. -/
def run_implementation (s : RunnerSettings) (fs : FileSystemEnv) (sb : SubprocessBehavior)
    (task : Task) : M ClaudeResult :=
  run_claude s fs sb (build_implementation_prompt task) task.project_path task.session_id

/-- The agent adapter as injected into `TaskProcessor` (the `claude` argument
of its constructor): each sequential invocation — indexed by the attempt
number — either returns a `ClaudeResult` or raises. -/
structure ClaudeIface where
  run_planning : Task → Nat → Except PyErr ClaudeResult
  run_implementation : Task → Nat → Except PyErr ClaudeResult

/-- The `Settings` fields consumed by `TaskProcessor`. -/
structure ProcSettings where
  max_retries : Nat := 2
  retry_backoff_base : ℚ := 2

/-- The body of one attempt of `TaskProcessor._run_with_retries`: the
`if/elif/else` that dispatches on the task status, calling `run_planning` for
`ToPlan`, `run_implementation` for `ReadyToImplement`, and otherwise building
the inline `Unknown AI stage` failure result. -/
def attemptOnce (claude : ClaudeIface) (task : Task) (attempt : Nat) :
    M ClaudeResult := fun tr =>
  if task.status = TaskStatus.TO_PLAN then
    (claude.run_planning task attempt, tr ++ [Event.agentCall AgentKind.planning attempt])
  else if task.status = TaskStatus.READY_TO_IMPLEMENT then
    (claude.run_implementation task attempt, tr ++ [Event.agentCall AgentKind.implementation attempt])
  else
    (Except.ok { success := false, output := "", error := "Unknown AI stage: " ++ task.status.value },
     tr ++ [Event.unknownStage attempt])

/-- The `for attempt in range(1, max_retries + 1)` loop of
`_run_with_retries`, unrolled on the number `r` of remaining iterations with
`attempt` the current attempt number: return at the first success, sleep
`backoff_base ^ attempt` after a failed attempt only when `attempt <
max_retries`, and fall out of the loop with the last result. -/
def run_with_retries_aux (claude : ClaudeIface) (task : Task) (max_retries : Nat)
    (backoff_base : ℚ) : Nat → Nat → ClaudeResult → M ClaudeResult
  | _, 0, last => M.pure last
  | attempt, r + 1, _ => do
    let last ← attemptOnce claude task attempt
    if last.success then M.pure last
    else do
      if attempt < max_retries then emitM (Event.sleep (backoff_base ^ attempt))
      else M.pure ()
      run_with_retries_aux claude task max_retries backoff_base (attempt + 1) r last

/-- `TaskProcessor._run_with_retries`. -/
def run_with_retries (claude : ClaudeIface) (task : Task) (max_retries : Nat)
    (backoff_base : ℚ) : M ClaudeResult :=
  run_with_retries_aux claude task max_retries backoff_base 1 max_retries
    { success := false, output := "", error := "No attempts made" }

/-- `TaskProcessor.process_task`: look up the trigger transition (absent means
immediate failure), write the in-progress status, run the agent with retries,
then on success best-effort-persist the plan output (planning tasks with
non-empty output only) and the session id, and write the done status; on
failure best-effort-append an error comment and return `False`.  The two
best-effort writes sit inside `try/except` blocks; the two status writes do
not. -/
def process_task (notion : NotionEnv) (claude : ClaudeIface) (settings : ProcSettings)
    (task : Task) : M Bool :=
  match AI_TRANSITIONS task.status with
  | none => M.pure false
  | some (in_progress_status, done_status) => do
    update_task_status notion task.page_id in_progress_status
    let result ← run_with_retries claude task settings.max_retries settings.retry_backoff_base
    if result.success then do
      (if task.status = TaskStatus.TO_PLAN ∧ result.output ≠ "" then
        tryCatchM
          (update_task_property notion task.page_id "PlanOutput" (result.output.take 2000))
          (fun _ => M.pure ())
       else M.pure ())
      (if result.session_id ≠ "" then
        tryCatchM
          (add_comment notion task.page_id
            ("[dev-scheduler] Session ID: " ++ result.session_id))
          (fun _ => M.pure ())
       else M.pure ())
      update_task_status notion task.page_id done_status
      M.pure true
    else do
      tryCatchM
        (add_comment notion task.page_id ("[dev-scheduler] Error: " ++ result.error))
        (fun _ => M.pure ())
      M.pure false

/-- The serial task loop inside `Scheduler._poll_cycle`: before each task the
`self._running` flag is read (`running i` is the value observed before the
`i`-th task of the batch); a `False` observation breaks out of the loop.  The
returned list collects the tasks actually handed to `process_task`. -/
def poll_cycle_loop (notion : NotionEnv) (claude : ClaudeIface) (settings : ProcSettings)
    (running : Nat → Bool) : Nat → List Task → M (List Task)
  | _, [] => M.pure []
  | i, t :: ts =>
    if running i then do
      let _ ← process_task notion claude settings t
      let rest ← poll_cycle_loop notion claude settings running (i + 1) ts
      M.pure (t :: rest)
    else M.pure []

/-- One entry of a Notion title array.  `content` is
`item["text"]["content"]`; `none` models a missing `"text"` or `"content"`
key, whose subscript access raises `KeyError`. -/
structure TitleItem where
  content : Option String
  deriving DecidableEq, Repr

/-- One entry of a Notion rich-text array.  `_extract_rich_text` reads
`item.get("text", {}).get("content", "")`, which never raises, so a missing
key is already the empty string. -/
structure RichTextItem where
  content : String
  deriving DecidableEq, Repr

/-- The `Status` property dict.  `statusName = some n` models a `"status"` key
whose `.get("name", "")` is `n`; likewise `selectName` for a `"select"` key. -/
structure StatusPropVal where
  statusName : Option String := none
  selectName : Option String := none
  deriving DecidableEq, Repr

/-- The `properties` dict of a page, shaped by how `_page_to_task` reads it:
`nameTitle` is `props.get("Name", {}).get("title")` (`none` when the `Name`
property or its `title` key is absent); the rich-text arrays are the
`.get(..., [])` results; `repositoryUrl` is `props.get("Repository",
{}).get("url")`. -/
structure PageProps where
  nameTitle : Option (List TitleItem) := none
  statusProp : StatusPropVal := {}
  descriptionRichText : List RichTextItem := []
  projectPathRichText : List RichTextItem := []
  repositoryUrl : Option String := none
  repositoryRichText : List RichTextItem := []
  branchRichText : List RichTextItem := []
  planOutputRichText : List RichTextItem := []
  deriving DecidableEq, Repr

/-- A page of a Notion query response.  `none` in `id` or `properties` models
the key being absent (subscripting raises `KeyError`). -/
structure NotionPage where
  id : Option String := none
  properties : Option PageProps := none
  deriving DecidableEq, Repr

/-- `NotionTaskClient._extract_rich_text`: first entry's text content with
null bytes stripped, or the empty string. -/
def extractRichText (items : List RichTextItem) : String :=
  match items with
  | [] => ""
  | item :: _ => (item.content).replace (String.singleton (Char.ofNat 0)) ""

/-- The status-name extraction of `_page_to_task`: the `"status"` shape wins
over the `"select"` shape; neither present leaves the empty string. -/
def statusNameOf (sp : StatusPropVal) : String :=
  match sp.statusName with
  | some n => n
  | none =>
    match sp.selectName with
    | some n => n
    | none => ""

/-- `NotionTaskClient._page_to_task`: build a `Task` from a page, returning
`none` whenever the `try` body raises `KeyError`, `ValueError` or
`IndexError` — a missing `properties` or `id` key, a title entry without its
text content, or a status token that is not a known `TaskStatus` value.  A
falsy `title` (absent key or empty array) leaves the name empty without
raising. -/
def page_to_task (page : NotionPage) : Option Task :=
  match page.properties with
  | none => none
  | some props =>
    let nameRes : Option String :=
      match props.nameTitle with
      | some (item :: _) => item.content
      | _ => some ""
    match nameRes with
    | none => none
    | some name =>
      match TaskStatus.fromString (statusNameOf props.statusProp) with
      | none => none
      | some status =>
        let description := extractRichText props.descriptionRichText
        let project_path := extractRichText props.projectPathRichText
        let repository :=
          if props.repositoryUrl.getD "" ≠ "" then props.repositoryUrl.getD ""
          else if props.repositoryRichText ≠ [] then extractRichText props.repositoryRichText
          else ""
        let branch := extractRichText props.branchRichText
        let plan_output := extractRichText props.planOutputRichText
        match page.id with
        | none => none
        | some pid =>
          some { page_id := pid, name := name, status := status,
                 description := description, project_path := project_path,
                 repository := repository, branch := branch,
                 plan_output := plan_output }

/-- The result loop of `NotionTaskClient.query_tasks_by_status`: every page of
the response goes through `_page_to_task` and only the parsed ones are kept. -/
def query_tasks_filter (results : List NotionPage) : List Task :=
  results.filterMap page_to_task

/-- The wiring of `main.py`/`scheduler.py`: the `ClaudeRunner` instance viewed
through the adapter interface the `TaskProcessor` consumes.  `sb i` is the
behaviour of the subprocess spawned by the `i`-th sequential invocation. -/
def runnerIface (s : RunnerSettings) (fs : FileSystemEnv) (sb : Nat → SubprocessBehavior) :
    ClaudeIface where
  run_planning := fun t i => (DevScheduler.run_planning s fs (sb i) t []).1
  run_implementation := fun t i => (DevScheduler.run_implementation s fs (sb i) t []).1

/-- An adapter whose `i`-th sequential invocation returns `out i` and never
raises (the in-memory substitute the design notes call for). -/
def pureClaude (out : Nat → ClaudeResult) : ClaudeIface where
  run_planning := fun _ i => Except.ok (out i)
  run_implementation := fun _ i => Except.ok (out i)

/-- Which adapter entry point a trigger status dispatches to. -/
def triggerKind (s : TaskStatus) : AgentKind :=
  if s = TaskStatus.TO_PLAN then AgentKind.planning else AgentKind.implementation

/-- The event trace of `k` consecutive failed-then-retried attempts starting
at attempt number `a`: adapter calls `a, a+1, ...` with a backoff sleep of
`backoff_base ^ i` strictly between call `i` and call `i + 1` — no sleep
before the first call nor after the last. -/
def retryTrace (kind : AgentKind) (backoff_base : ℚ) : Nat → Nat → List Event
  | _, 0 => []
  | a, 1 => [Event.agentCall kind a]
  | a, k + 2 =>
    Event.agentCall kind a :: Event.sleep (backoff_base ^ a) ::
      retryTrace kind backoff_base (a + 1) (k + 1)

/-- A computation only ever appends to the event trace. -/
def Appends (x : M α) : Prop := ∀ tr, ∃ d, (x tr).2 = tr ++ d

/-- A computation never ends in an uncaught exception. -/
def NoRaise (x : M α) : Prop := ∀ tr, ∃ a tr', x tr = (Except.ok a, tr')

theorem M.pure_apply (a : α) (tr : List Event) :
    (Pure.pure a : M α) tr = (Except.ok a, tr) := rfl

theorem M.bind_apply (x : M α) (f : α → M β) (tr : List Event) :
    (x >>= f) tr =
      match x tr with
      | (Except.ok a, tr') => f a tr'
      | (Except.error e, tr') => (Except.error e, tr') := rfl

/-- Claim C7: the forward-transition table maps each of the 13 non-terminal
stages to exactly the next stage in the fixed 14-stage order and has no entry
for the terminal stage `ReleaseDone`; the trigger-transition table has exactly
the two entries `ToPlan -> (Planning, Planned)` and
`ReadyToImplement -> (ImplementInProgress, ImplementDone)`. -/
theorem c7_transition_tables :
    stageOrder.length = 14 ∧
    (∀ i : Fin 13, VALID_TRANSITIONS (stageOrder.getD i REQUIREMENT) =
      some (stageOrder.getD (i + 1) REQUIREMENT)) ∧
    VALID_TRANSITIONS RELEASE_DONE = none ∧
    (∀ s : TaskStatus,
      AI_TRANSITIONS s =
        if s = TO_PLAN then some (PLANNING, PLANNED)
        else if s = READY_TO_IMPLEMENT then
          some (IMPLEMENT_IN_PROGRESS, IMPLEMENT_DONE)
        else none) := by
  refine ⟨rfl, ?_, rfl, ?_⟩
  · decide
  · intro s; cases s <;> rfl

theorem run_claude_spawns {s : RunnerSettings} {fs : FileSystemEnv} {sb : SubprocessBehavior}
    {prompt path sid : String} {cwd : Option String} (tr : List Event)
    (h : resolveProjectPath fs path = Except.ok cwd) :
    ∃ r, run_claude s fs sb prompt path sid tr = (Except.ok r, tr ++ [Event.spawnAgent cwd]) := by
  unfold run_claude
  rw [h]
  cases sb with
  | timesOut => exact ⟨_, rfl⟩
  | notFound => exact ⟨_, rfl⟩
  | completes rc stdout stderr =>
    by_cases hrc : rc ≠ 0
    · simp only [if_pos hrc]
      exact ⟨_, rfl⟩
    · simp only [if_neg hrc]
      cases stdout <;> exact ⟨_, rfl⟩

theorem run_claude_raises {s : RunnerSettings} {fs : FileSystemEnv} {sb : SubprocessBehavior}
    {prompt path sid m : String} (tr : List Event)
    (h : resolveProjectPath fs path = Except.error m) :
    run_claude s fs sb prompt path sid tr = (Except.error (PyErr.valueError m), tr) := by
  unfold run_claude
  rw [h]

/-- Claim C9 (confirmed): an empty project path does not fail fast — path
validation returns no working directory, and the agent process is spawned
with no working-directory binding (`cwd = None`); the validation step never
produces a failure outcome for the empty path, whatever the subprocess then
does. -/
theorem c9_empty_path_not_failed (s : RunnerSettings) (fs : FileSystemEnv)
    (sb : SubprocessBehavior) (task : Task) (tr : List Event)
    (h : task.project_path = "") :
    resolveProjectPath fs task.project_path = Except.ok none ∧
    (∃ r, run_planning s fs sb task tr = (Except.ok r, tr ++ [Event.spawnAgent none])) ∧
    (∃ r, run_implementation s fs sb task tr = (Except.ok r, tr ++ [Event.spawnAgent none])) := by
  have hres : resolveProjectPath fs task.project_path = Except.ok none := by
    simp [resolveProjectPath, h]
  exact ⟨hres, run_claude_spawns tr hres, run_claude_spawns tr hres⟩

/-- Witness for C9 at a concrete task with an empty project path and a
timing-out subprocess. -/
theorem c9_witness :
    resolveProjectPath ⟨id, fun _ => true⟩ (Task.project_path
        { page_id := "p1", name := "T", status := TaskStatus.TO_PLAN }) = Except.ok none ∧
    (∃ r, run_planning {} ⟨id, fun _ => true⟩ SubprocessBehavior.timesOut
        { page_id := "p1", name := "T", status := TaskStatus.TO_PLAN } [] =
      (Except.ok r, [] ++ [Event.spawnAgent none])) ∧
    (∃ r, run_implementation {} ⟨id, fun _ => true⟩ SubprocessBehavior.timesOut
        { page_id := "p1", name := "T", status := TaskStatus.TO_PLAN } [] =
      (Except.ok r, [] ++ [Event.spawnAgent none])) :=
  c9_empty_path_not_failed {} ⟨id, fun _ => true⟩ SubprocessBehavior.timesOut
    { page_id := "p1", name := "T", status := TaskStatus.TO_PLAN } [] rfl

theorem update_task_status_ok {env : NotionEnv} {pid : String} {st : TaskStatus}
    (h : env.updateStatusFails pid st = false) (tr : List Event) :
    update_task_status env pid st tr = (Except.ok (), tr ++ [Event.updateStatus pid st]) := by
  simp [update_task_status, h]

theorem attemptOnce_to_plan {claude : ClaudeIface} {task : Task} {a : Nat}
    (h : task.status = TaskStatus.TO_PLAN) (tr : List Event) :
    attemptOnce claude task a tr =
      (claude.run_planning task a, tr ++ [Event.agentCall AgentKind.planning a]) := by
  simp [attemptOnce, h]

theorem attemptOnce_ready_to_implement {claude : ClaudeIface} {task : Task} {a : Nat}
    (h : task.status = TaskStatus.READY_TO_IMPLEMENT) (tr : List Event) :
    attemptOnce claude task a tr =
      (claude.run_implementation task a, tr ++ [Event.agentCall AgentKind.implementation a]) := by
  simp [attemptOnce, h]

/-- Counterexample to C2 as stated: with a filesystem on which `/missing`
is not a directory, `run_planning` does not return a failure outcome — it
raises `ValueError` (an `Except.error`, not an `Except.ok` carrying
`success = false`), and the empty final trace shows no process was spawned. -/
theorem c2_counterexample :
    run_planning {} ⟨id, fun _ => false⟩
        (SubprocessBehavior.completes 0 (AgentStdout.notJson "") "")
        { page_id := "p1", name := "T", status := TaskStatus.TO_PLAN,
          project_path := "/missing" } [] =
      (Except.error (PyErr.valueError
        "Project path does not exist or is not a directory: /missing"), []) := by
  rfl

/-- Claim C2 as amended: on a malformed working directory (path missing, not
a directory, or containing null bytes — i.e. `_resolve_project_path` fails)
the adapter raises a `ValueError` before spawning any process, and the
exception propagates through the retry loop and `process_task` to its caller:
the agent process is never spawned and no retry attempt completes, but no
failure outcome is returned — the task fails by exception, not by a `False`
return. -/
theorem c2_amended (s : RunnerSettings) (fs : FileSystemEnv) (sb : Nat → SubprocessBehavior)
    (notion : NotionEnv) (settings : ProcSettings) (task : Task) (tr : List Event) (m : String)
    (hres : resolveProjectPath fs task.project_path = Except.error m) :
    run_planning s fs (sb 1) task tr = (Except.error (PyErr.valueError m), tr) ∧
    run_implementation s fs (sb 1) task tr = (Except.error (PyErr.valueError m), tr) ∧
    (task.status = TaskStatus.TO_PLAN →
      notion.updateStatusFails task.page_id TaskStatus.PLANNING = false →
      1 ≤ settings.max_retries →
      process_task notion (runnerIface s fs sb) settings task tr =
        (Except.error (PyErr.valueError m),
         tr ++ [Event.updateStatus task.page_id TaskStatus.PLANNING,
                Event.agentCall AgentKind.planning 1])) := by
  refine ⟨run_claude_raises tr hres, run_claude_raises tr hres, ?_⟩
  intro hstat hip hN
  have hAI : AI_TRANSITIONS task.status = some (TaskStatus.PLANNING, TaskStatus.PLANNED) := by
    rw [hstat]; rfl
  obtain ⟨r, hr⟩ := Nat.exists_eq_add_of_le hN
  have hr' : settings.max_retries = r + 1 := by omega
  have hplan : (runnerIface s fs sb).run_planning task 1 = Except.error (PyErr.valueError m) := by
    show (run_planning s fs (sb 1) task []).1 = _
    unfold run_planning
    rw [run_claude_raises ([] : List Event) hres]
  simp only [process_task, hAI]
  rw [M.bind_apply, update_task_status_ok hip]
  simp only [run_with_retries, hr', run_with_retries_aux]
  rw [M.bind_apply, M.bind_apply, attemptOnce_to_plan hstat, hplan]
  simp

/-- Witness for the amended C2 at a concrete missing directory. -/
theorem c2_amended_witness :
    run_planning {} ⟨id, fun _ => false⟩ SubprocessBehavior.timesOut
        { page_id := "p1", name := "T", status := TaskStatus.TO_PLAN,
          project_path := "/missing" } [] =
      (Except.error (PyErr.valueError
        "Project path does not exist or is not a directory: /missing"), []) ∧
    run_implementation {} ⟨id, fun _ => false⟩ SubprocessBehavior.timesOut
        { page_id := "p1", name := "T", status := TaskStatus.TO_PLAN,
          project_path := "/missing" } [] =
      (Except.error (PyErr.valueError
        "Project path does not exist or is not a directory: /missing"), []) ∧
    (Task.status
        { page_id := "p1", name := "T", status := TaskStatus.TO_PLAN,
          project_path := "/missing" } = TaskStatus.TO_PLAN →
      NotionEnv.updateStatusFails ⟨fun _ _ => false, fun _ _ => false, fun _ _ _ => false⟩
          "p1" TaskStatus.PLANNING = false →
      1 ≤ ProcSettings.max_retries {} →
      process_task ⟨fun _ _ => false, fun _ _ => false, fun _ _ _ => false⟩
          (runnerIface {} ⟨id, fun _ => false⟩ (fun _ => SubprocessBehavior.timesOut)) {}
          { page_id := "p1", name := "T", status := TaskStatus.TO_PLAN,
            project_path := "/missing" } [] =
        (Except.error (PyErr.valueError
          "Project path does not exist or is not a directory: /missing"),
         [] ++ [Event.updateStatus "p1" TaskStatus.PLANNING,
                Event.agentCall AgentKind.planning 1])) :=
  c2_amended {} ⟨id, fun _ => false⟩ (fun _ => SubprocessBehavior.timesOut)
    ⟨fun _ _ => false, fun _ _ => false, fun _ _ _ => false⟩ {}
    { page_id := "p1", name := "T", status := TaskStatus.TO_PLAN,
      project_path := "/missing" } [] _ rfl

/-- Counterexample to C6 as stated: a page whose title field is structurally
missing (no `Name` property at all) but whose stage token is valid is NOT
dropped — `_page_to_task` keeps it as a task with an empty name. -/
theorem c6_counterexample :
    page_to_task
        { id := some "page-1",
          properties := some { statusProp := { selectName := some "ToPlan" } } } =
      some { page_id := "page-1", name := "", status := TaskStatus.TO_PLAN } := rfl

/-- Claim C6 as amended: a page whose stage token is not one of the 14 known
tokens (including a structurally missing stage field, which yields the empty
token), or whose `properties` or `id` key is missing, or whose first title
entry lacks its text content, is dropped (`none`, no exception), and dropping
it leaves the rest of the batch intact; but a page whose title property is
absent is kept with an empty name, not dropped. -/
theorem c6_amended (page : NotionPage) :
    (∀ props, page.properties = some props →
      TaskStatus.fromString (statusNameOf props.statusProp) = none →
      page_to_task page = none) ∧
    (page.properties = none → page_to_task page = none) ∧
    (∀ props rest, page.properties = some props →
      props.nameTitle = some ({ content := none } :: rest) →
      page_to_task page = none) ∧
    (page.id = none → page_to_task page = none) ∧
    (∀ props st pid, page.properties = some props → props.nameTitle = none →
      TaskStatus.fromString (statusNameOf props.statusProp) = some st →
      page.id = some pid →
      ∃ t, page_to_task page = some t ∧ t.name = "" ∧ t.status = st ∧ t.page_id = pid) ∧
    (∀ xs ys, page_to_task page = none →
      query_tasks_filter (xs ++ page :: ys) = query_tasks_filter xs ++ query_tasks_filter ys) := by
  refine ⟨?_, ?_, ?_, ?_, ?_, ?_⟩
  · intro props hp hst
    simp only [page_to_task, hp]
    rcases props.nameTitle with _ | ⟨_ | ⟨item, rest⟩⟩
    · simp [hst]
    · simp [hst]
    · rcases item with ⟨_ | c⟩
      · simp
      · simp [hst]
  · intro hp
    simp [page_to_task, hp]
  · intro props rest hp hname
    simp [page_to_task, hp, hname]
  · intro hid
    rcases hp : page.properties with _ | props
    · simp [page_to_task, hp]
    · simp only [page_to_task, hp]
      rcases props.nameTitle with _ | ⟨_ | ⟨⟨_ | c⟩, rest⟩⟩ <;>
        rcases hst : TaskStatus.fromString (statusNameOf props.statusProp) with _ | st <;>
        simp [hst, hid]
  · intro props st pid hp hname hst hpid
    simp only [page_to_task, hp, hname, hst, hpid]
    exact ⟨_, rfl, rfl, rfl, rfl⟩
  · intro xs ys h
    simp [query_tasks_filter, List.filterMap_append, h]

/-- Witness for the amended C6: a concrete batch in which the middle page has
the unknown stage token `Bogus` and is dropped while its neighbours are
returned. -/
theorem c6_amended_witness :
    page_to_task
        { id := some "page-2",
          properties := some { statusProp := { selectName := some "Bogus" } } } = none ∧
    query_tasks_filter
        ([{ id := some "page-1",
            properties := some { statusProp := { selectName := some "ToPlan" } } }] ++
          { id := some "page-2",
            properties := some { statusProp := { selectName := some "Bogus" } } } ::
          [{ id := some "page-3",
             properties := some { statusProp := { statusName := some "Planned" } } }]) =
      query_tasks_filter
          [{ id := some "page-1",
             properties := some { statusProp := { selectName := some "ToPlan" } } }] ++
        query_tasks_filter
          [{ id := some "page-3",
             properties := some { statusProp := { statusName := some "Planned" } } }] := by
  have hdrop :=
    (c6_amended
      { id := some "page-2",
        properties := some { statusProp := { selectName := some "Bogus" } } }).1
      _ rfl rfl
  exact ⟨hdrop,
    (c6_amended
      { id := some "page-2",
        properties := some { statusProp := { selectName := some "Bogus" } } }).2.2.2.2.2
      _ _ hdrop⟩

theorem attemptOnce_pure_trigger {out : Nat → ClaudeResult} {task : Task} {a : Nat}
    (htrig : task.status = TaskStatus.TO_PLAN ∨ task.status = TaskStatus.READY_TO_IMPLEMENT)
    (tr : List Event) :
    attemptOnce (pureClaude out) task a tr =
      (Except.ok (out a), tr ++ [Event.agentCall (triggerKind task.status) a]) := by
  rcases htrig with h | h
  · rw [attemptOnce_to_plan h]
    simp [pureClaude, triggerKind, h]
  · rw [attemptOnce_ready_to_implement h]
    simp [pureClaude, triggerKind, h]

theorem run_with_retries_aux_pure_char (out : Nat → ClaudeResult) (task : Task) (N : Nat) (B : ℚ)
    (htrig : task.status = TaskStatus.TO_PLAN ∨ task.status = TaskStatus.READY_TO_IMPLEMENT) :
    ∀ (r a : Nat) (last : ClaudeResult) (tr : List Event), 1 ≤ r → a + r = N + 1 →
    ∃ k, 1 ≤ k ∧ k ≤ r ∧
      run_with_retries_aux (pureClaude out) task N B a r last tr =
        (Except.ok (out (a + k - 1)), tr ++ retryTrace (triggerKind task.status) B a k) ∧
      (∀ i, a ≤ i → i < a + k - 1 → (out i).success = false) ∧
      ((out (a + k - 1)).success = true ∨ k = r) ∧
      ((out (a + k - 1)).success = false → k = r) := by
  intro r
  induction r with
  | zero => intro a last tr h1 _; omega
  | succ r ih =>
    intro a last tr h1 hsum
    simp only [run_with_retries_aux]
    rw [M.bind_apply, attemptOnce_pure_trigger htrig]
    by_cases hs : (out a).success = true
    · refine ⟨1, le_refl 1, by omega, ?_, by omega, Or.inl (by simpa using hs), ?_⟩
      · simp only [hs, if_true]
        simp [M.pure, retryTrace]
      · intro hf
        rw [Nat.add_sub_cancel] at hf
        rw [hf] at hs
        simp at hs
    · have hs' : (out a).success = false := by
        cases hsucc : (out a).success
        · rfl
        · exact absurd hsucc hs
      rcases r with _ | r'
      · have haN : ¬ a < N := by omega
        refine ⟨1, le_refl 1, le_refl 1, ?_, by omega, Or.inr rfl, fun _ => rfl⟩
        simp only [hs', if_false, Bool.false_eq_true, haN]
        rw [M.bind_apply]
        simp [M.pure, run_with_retries_aux, retryTrace]
      · have haN : a < N := by omega
        obtain ⟨k', hk1, hk2, heq, hfails, hstop, hstop2⟩ :=
          ih (a + 1) (out a) (tr ++ [Event.agentCall (triggerKind task.status) a,
            Event.sleep (B ^ a)]) (by omega) (by omega)
        obtain ⟨k'', hkk⟩ : ∃ k'', k' = k'' + 1 := ⟨k' - 1, by omega⟩
        refine ⟨k' + 1, by omega, by omega, ?_, ?_, ?_, ?_⟩
        · simp only [hs', if_false, Bool.false_eq_true, haN, if_true]
          rw [M.bind_apply]
          simp only [emitM]
          have harith : a + 1 + k' - 1 = a + (k' + 1) - 1 := by omega
          have hl : tr ++ [Event.agentCall (triggerKind task.status) a] ++ [Event.sleep (B ^ a)] =
              tr ++ [Event.agentCall (triggerKind task.status) a, Event.sleep (B ^ a)] := by
            simp
          have htr : retryTrace (triggerKind task.status) B a (k' + 1) =
              Event.agentCall (triggerKind task.status) a :: Event.sleep (B ^ a) ::
                retryTrace (triggerKind task.status) B (a + 1) k' := by
            rw [hkk]
            rfl
          rw [hl, heq, ← harith, htr]
          simp [List.append_assoc]
        · intro i hi1 hi2
          rcases Nat.eq_or_lt_of_le hi1 with heqi | hlt
          · rw [← heqi]; exact hs'
          · exact hfails i (by omega) (by omega)
        · have harith : a + 1 + k' - 1 = a + (k' + 1) - 1 := by omega
          rw [← harith]
          rcases hstop with h | h
          · exact Or.inl h
          · exact Or.inr (by omega)
        · have harith : a + 1 + k' - 1 = a + (k' + 1) - 1 := by omega
          intro hf
          rw [← harith] at hf
          have := hstop2 hf
          omega

/-- Claim C3 (confirmed): for `N ≥ 1` attempts, the retry loop invokes the
agent adapter strictly sequentially at attempts `1, 2, ..., k` for some
`k ≤ N`; it stops at the first successful attempt (every attempt before `k`
failed, and a failed `k`-th attempt means `k = N`), returns the last
attempt's outcome `out k`, and the trace is exactly the adapter calls with a
sleep of `B ^ i` strictly between call `i` and call `i + 1` — no sleep
before the first attempt nor after the final one (see `retryTrace`). -/
theorem c3_retry_policy (out : Nat → ClaudeResult) (task : Task) (N : Nat) (B : ℚ)
    (tr : List Event) (hN : 1 ≤ N)
    (htrig : task.status = TaskStatus.TO_PLAN ∨ task.status = TaskStatus.READY_TO_IMPLEMENT) :
    ∃ k, 1 ≤ k ∧ k ≤ N ∧
      run_with_retries (pureClaude out) task N B tr =
        (Except.ok (out k), tr ++ retryTrace (triggerKind task.status) B 1 k) ∧
      (∀ i, 1 ≤ i → i < k → (out i).success = false) ∧
      ((out k).success = true ∨ k = N) ∧
      ((out k).success = false → k = N) := by
  obtain ⟨k, h1, h2, heq, hf, hs, hs2⟩ :=
    run_with_retries_aux_pure_char out task N B htrig N 1
      { success := false, output := "", error := "No attempts made" } tr hN (by omega)
  have hk : 1 + k - 1 = k := by omega
  rw [hk] at heq hs hs2
  refine ⟨k, h1, h2, ?_, fun i hi1 hi2 => hf i hi1 (by omega), hs, hs2⟩
  simpa [run_with_retries] using heq

/-- Witness for C3: a transiently failing adapter under `N = 2`, `B = 2`
succeeds at the second attempt with exactly one sleep between the calls. -/
theorem c3_retry_policy_witness :
    run_with_retries
        (pureClaude (fun i =>
          if i = 1 then { success := false, output := "", error := "transient" }
          else { success := true, output := "ok" }))
        { page_id := "p", name := "T", status := TaskStatus.TO_PLAN } 2 2 [] =
      (Except.ok { success := true, output := "ok" },
       [Event.agentCall AgentKind.planning 1, Event.sleep 2,
        Event.agentCall AgentKind.planning 2]) := by
  obtain ⟨k, h1, h2, heq, hf, hs, hs2⟩ :=
    c3_retry_policy
      (fun i =>
        if i = 1 then { success := false, output := "", error := "transient" }
        else { success := true, output := "ok" })
      { page_id := "p", name := "T", status := TaskStatus.TO_PLAN } 2 2 []
      (by omega) (Or.inl rfl)
  rcases (by omega : k = 1 ∨ k = 2) with rfl | rfl
  · rcases hs with h | h
    · simp at h
    · omega
  · simpa [retryTrace, triggerKind] using heq

theorem trigger_of_isSome {task : Task} (h : (AI_TRANSITIONS task.status).isSome = true) :
    task.status = TaskStatus.TO_PLAN ∨ task.status = TaskStatus.READY_TO_IMPLEMENT := by
  cases hs : task.status <;> simp_all [AI_TRANSITIONS]

theorem attemptOnce_trigger {claude : ClaudeIface} {task : Task} {a : Nat}
    (hst : task.status = TaskStatus.TO_PLAN ∨ task.status = TaskStatus.READY_TO_IMPLEMENT)
    (tr : List Event) :
    ∃ res : Except PyErr ClaudeResult,
      attemptOnce claude task a tr = (res, tr ++ [Event.agentCall (triggerKind task.status) a]) := by
  rcases hst with h | h
  · refine ⟨claude.run_planning task a, ?_⟩
    rw [attemptOnce_to_plan h]
    simp [triggerKind, h]
  · refine ⟨claude.run_implementation task a, ?_⟩
    rw [attemptOnce_ready_to_implement h]
    simp [triggerKind, h]

theorem run_with_retries_aux_events (claude : ClaudeIface) (task : Task) (N : Nat) (B : ℚ)
    (htrig : (AI_TRANSITIONS task.status).isSome = true) :
    ∀ (r a : Nat) (last : ClaudeResult) (tr : List Event) (e : Event),
      e ∈ (run_with_retries_aux claude task N B a r last tr).2 →
      e ∈ tr ∨ (∃ i, e = Event.agentCall (triggerKind task.status) i) ∨
        (∃ q, e = Event.sleep q) := by
  intro r
  induction r with
  | zero =>
    intro a last tr e he
    exact Or.inl (by simpa [run_with_retries_aux, M.pure] using he)
  | succ r ih =>
    intro a last tr e he
    obtain ⟨res, hatt⟩ := attemptOnce_trigger (trigger_of_isSome htrig) (a := a) tr
    simp only [run_with_retries_aux] at he
    rw [M.bind_apply, hatt] at he
    rcases res with e' | res
    · rcases List.mem_append.1 he with h | h
      · exact Or.inl h
      · exact Or.inr (Or.inl ⟨a, by simpa using h⟩)
    · by_cases hsucc : res.success = true
      · simp only [hsucc, if_true] at he
        rcases (by simpa [M.pure] using he :
            e ∈ tr ∨ e = Event.agentCall (triggerKind task.status) a) with h | h
        · exact Or.inl h
        · exact Or.inr (Or.inl ⟨a, h⟩)
      · have hf : res.success = false := by
          cases hx : res.success
          · rfl
          · exact absurd hx hsucc
        simp only [hf, Bool.false_eq_true, if_false] at he
        by_cases haN : a < N
        · simp only [haN, if_true] at he
          rw [M.bind_apply] at he
          simp only [emitM] at he
          rcases ih (a + 1) res
              (tr ++ [Event.agentCall (triggerKind task.status) a] ++ [Event.sleep (B ^ a)])
              e he with h | h | h
          · rcases List.mem_append.1 h with h2 | h2
            · rcases List.mem_append.1 h2 with h3 | h3
              · exact Or.inl h3
              · exact Or.inr (Or.inl ⟨a, by simpa using h3⟩)
            · exact Or.inr (Or.inr ⟨B ^ a, by simpa using h2⟩)
          · exact Or.inr (Or.inl h)
          · exact Or.inr (Or.inr h)
        · simp only [haN, if_false] at he
          rw [M.bind_apply] at he
          simp only [M.pure] at he
          rcases ih (a + 1) res (tr ++ [Event.agentCall (triggerKind task.status) a])
              e he with h | h | h
          · rcases List.mem_append.1 h with h2 | h2
            · exact Or.inl h2
            · exact Or.inr (Or.inl ⟨a, by simpa using h2⟩)
          · exact Or.inr (Or.inl h)
          · exact Or.inr (Or.inr h)


/-- Claim C10 (confirmed): once a task's status has a trigger-transition
entry, the defensive `Unknown AI stage` branch of the retry loop is
unreachable — the loop's trace contains no `unknownStage` event — and every
adapter call it makes goes through `run_planning` for `ToPlan` and
`run_implementation` for `ReadyToImplement` (the `triggerKind` of the
status). -/
theorem c10_unknown_stage_unreachable (claude : ClaudeIface) (task : Task) (N : Nat) (B : ℚ)
    (htrig : (AI_TRANSITIONS task.status).isSome = true) :
    (task.status = TaskStatus.TO_PLAN → triggerKind task.status = AgentKind.planning) ∧
    (task.status = TaskStatus.READY_TO_IMPLEMENT →
      triggerKind task.status = AgentKind.implementation) ∧
    ∀ e ∈ (run_with_retries claude task N B []).2,
      (∀ i, e ≠ Event.unknownStage i) ∧
      (∀ kind i, e = Event.agentCall kind i → kind = triggerKind task.status) := by
  refine ⟨fun h => by simp [triggerKind, h], fun h => by simp [triggerKind, h], ?_⟩
  intro e he
  rcases run_with_retries_aux_events claude task N B htrig N 1 _ [] e
      (by simpa [run_with_retries] using he) with h | h | h
  · simp at h
  · obtain ⟨i, rfl⟩ := h
    refine ⟨fun j => by simp, fun kind j hj => ?_⟩
    injection hj with h1 _
    exact h1.symm
  · obtain ⟨q, rfl⟩ := h
    refine ⟨fun j => by simp, fun kind j hj => ?_⟩
    simp at hj

/-- Witness for C10: no `unknownStage` event in a concrete trigger-status
run. -/
theorem c10_witness :
    Event.unknownStage 1 ∉
      (run_with_retries (pureClaude (fun _ => { success := true, output := "ok" }))
        { page_id := "p", name := "T", status := TaskStatus.TO_PLAN } 2 2 []).2 := by
  intro h
  exact ((c10_unknown_stage_unreachable
      (pureClaude (fun _ => { success := true, output := "ok" }))
      { page_id := "p", name := "T", status := TaskStatus.TO_PLAN } 2 2 rfl).2.2
      (Event.unknownStage 1) h).1 1 rfl


theorem appends_pure (a : α) : Appends (M.pure a) := fun tr => ⟨[], by simp [M.pure]⟩

theorem appends_bind {x : M α} {f : α → M β} (hx : Appends x) (hf : ∀ a, Appends (f a)) :
    Appends (x >>= f) := by
  intro tr
  obtain ⟨d, hd⟩ := hx tr
  rcases hxtr : x tr with ⟨res, tr1⟩
  rw [hxtr] at hd
  cases res with
  | error e =>
    refine ⟨d, ?_⟩
    rw [M.bind_apply, hxtr]
    exact hd
  | ok a =>
    obtain ⟨d2, hd2⟩ := hf a tr1
    refine ⟨d ++ d2, ?_⟩
    rw [M.bind_apply, hxtr]
    show (f a tr1).2 = tr ++ (d ++ d2)
    rw [hd2]
    show tr1 ++ d2 = tr ++ (d ++ d2)
    rw [show tr1 = tr ++ d from hd, List.append_assoc]

theorem appends_seqUnit {x : M Unit} {y : M β} (hx : Appends x) (hy : Appends y) :
    Appends (x >>= fun _ => y) :=
  appends_bind hx fun _ => hy

theorem appends_tryCatch {x : M α} {handler : PyErr → M α} (hx : Appends x)
    (hh : ∀ e, Appends (handler e)) : Appends (tryCatchM x handler) := by
  intro tr
  obtain ⟨d, hd⟩ := hx tr
  rcases hxtr : x tr with ⟨res, tr1⟩
  rw [hxtr] at hd
  cases res with
  | ok a => exact ⟨d, by simp only [tryCatchM, hxtr]; exact hd⟩
  | error e =>
    obtain ⟨d2, hd2⟩ := hh e tr1
    refine ⟨d ++ d2, ?_⟩
    show (tryCatchM x handler tr).2 = tr ++ (d ++ d2)
    simp only [tryCatchM, hxtr]
    rw [hd2, show tr1 = tr ++ d from hd, List.append_assoc]

theorem appends_emitM (e : Event) : Appends (emitM e) := fun tr => ⟨[e], rfl⟩

theorem appends_update_task_status (env : NotionEnv) (pid : String) (st : TaskStatus) :
    Appends (update_task_status env pid st) := by
  intro tr
  refine ⟨[Event.updateStatus pid st], ?_⟩
  by_cases h : env.updateStatusFails pid st <;> simp [update_task_status, h]

theorem appends_add_comment (env : NotionEnv) (pid content : String) :
    Appends (add_comment env pid content) := by
  intro tr
  refine ⟨[Event.addComment pid (content.take 2000)], ?_⟩
  by_cases h : env.addCommentFails pid content <;> simp [add_comment, h]

theorem appends_update_task_property (env : NotionEnv) (pid pn v : String) :
    Appends (update_task_property env pid pn v) := by
  intro tr
  refine ⟨[Event.updateProp pid pn (v.take 2000)], ?_⟩
  by_cases h : env.updatePropFails pid pn v <;> simp [update_task_property, h]

theorem appends_attemptOnce (claude : ClaudeIface) (task : Task) (a : Nat) :
    Appends (attemptOnce claude task a) := by
  intro tr
  simp only [attemptOnce]
  split_ifs <;> exact ⟨_, rfl⟩

theorem appends_run_with_retries_aux (claude : ClaudeIface) (task : Task) (N : Nat) (B : ℚ) :
    ∀ (r a : Nat) (last : ClaudeResult),
      Appends (run_with_retries_aux claude task N B a r last) := by
  intro r
  induction r with
  | zero => intro a last tr; exact ⟨[], by simp [run_with_retries_aux, M.pure]⟩
  | succ r ih =>
    intro a last
    simp only [run_with_retries_aux]
    apply appends_bind (appends_attemptOnce claude task a)
    intro res
    by_cases hs : res.success = true
    · rw [if_pos hs]
      exact appends_pure res
    · rw [if_neg hs]
      by_cases haN : a < N
      · rw [if_pos haN]
        exact appends_seqUnit (appends_emitM _) (ih (a + 1) res)
      · rw [if_neg haN]
        exact appends_seqUnit (appends_pure _) (ih (a + 1) res)

theorem bind_first_event {x : M Unit} {f : Unit → M β} {u : Event} (tr : List Event)
    (hx : ∀ tr0, (x tr0).2 = tr0 ++ [u]) (hf : Appends (f ())) :
    ∃ rest, ((x >>= f) tr).2 = tr ++ u :: rest := by
  rcases hxtr : x tr with ⟨res, tr1⟩
  have h1 : tr1 = tr ++ [u] := by
    have := hx tr
    rw [hxtr] at this
    exact this
  cases res with
  | error e => exact ⟨[], by rw [M.bind_apply, hxtr]; simpa using h1⟩
  | ok a =>
    cases a
    obtain ⟨d, hd⟩ := hf tr1
    refine ⟨d, ?_⟩
    rw [M.bind_apply, hxtr]
    show (f () tr1).2 = tr ++ u :: d
    rw [hd, h1]
    simp

/-- Claim C5 (confirmed): for a task in a non-trigger stage, `process_task`
returns `False` with an unchanged trace — no store write and no adapter
invocation; for a task in a trigger stage, the very first event `process_task`
adds to the trace is the in-progress status write, so that write is issued
before any agent invocation. -/
theorem c5_trigger_gate (notion : NotionEnv) (claude : ClaudeIface) (settings : ProcSettings)
    (task : Task) (tr : List Event) :
    (AI_TRANSITIONS task.status = none →
      process_task notion claude settings task tr = (Except.ok false, tr)) ∧
    (∀ ip dn, AI_TRANSITIONS task.status = some (ip, dn) →
      ∃ rest, (process_task notion claude settings task tr).2 =
        tr ++ Event.updateStatus task.page_id ip :: rest) := by
  constructor
  · intro h
    simp [process_task, h, M.pure]
  · intro ip dn h
    simp only [process_task, h]
    refine bind_first_event tr ?_ ?_
    · intro tr0
      by_cases hfail : notion.updateStatusFails task.page_id ip <;>
        simp [update_task_status, hfail]
    · apply appends_bind
      · simp only [run_with_retries]
        exact appends_run_with_retries_aux claude task _ _ _ 1 _
      · intro result
        by_cases hs : result.success = true
        · rw [if_pos hs]
          split_ifs <;>
            refine appends_seqUnit ?_ (appends_seqUnit ?_ (appends_seqUnit
              (appends_update_task_status _ _ _) (appends_pure _))) <;>
            first
              | exact appends_tryCatch (appends_update_task_property _ _ _ _)
                  fun _ => appends_pure _
              | exact appends_tryCatch (appends_add_comment _ _ _) fun _ => appends_pure _
              | exact appends_pure _
        · rw [if_neg hs]
          exact appends_seqUnit
            (appends_tryCatch (appends_add_comment _ _ _) fun _ => appends_pure _)
            (appends_pure _)

/-- Witness for C5: a non-trigger task yields `False` with no writes, and a
`ToPlan` task's first trace event is the `Planning` write. -/
theorem c5_witness :
    process_task ⟨fun _ _ => false, fun _ _ => false, fun _ _ _ => false⟩
        (pureClaude fun _ => { success := true, output := "ok" }) {}
        { page_id := "p", name := "T", status := TaskStatus.REQUIREMENT } [] =
      (Except.ok false, []) ∧
    ((process_task ⟨fun _ _ => false, fun _ _ => false, fun _ _ _ => false⟩
        (pureClaude fun _ => { success := true, output := "ok" }) {}
        { page_id := "p", name := "T", status := TaskStatus.TO_PLAN } []).2).take 1 =
      [Event.updateStatus "p" TaskStatus.PLANNING] := by
  constructor
  · exact (c5_trigger_gate _ _ _ _ _).1 rfl
  · obtain ⟨rest, hrest⟩ := (c5_trigger_gate
      ⟨fun _ _ => false, fun _ _ => false, fun _ _ _ => false⟩
      (pureClaude fun _ => { success := true, output := "ok" }) {}
      { page_id := "p", name := "T", status := TaskStatus.TO_PLAN } []).2
      TaskStatus.PLANNING TaskStatus.PLANNED rfl
    rw [hrest]
    simp


theorem trigger_of_some {task : Task} {ip dn : TaskStatus}
    (h : AI_TRANSITIONS task.status = some (ip, dn)) :
    task.status = TaskStatus.TO_PLAN ∨ task.status = TaskStatus.READY_TO_IMPLEMENT := by
  cases hs : task.status <;> simp_all [AI_TRANSITIONS]

theorem tryCatch_add_comment_ok (env : NotionEnv) (pid content : String) (tr : List Event) :
    tryCatchM (add_comment env pid content) (fun _ => M.pure ()) tr =
      (Except.ok (), tr ++ [Event.addComment pid (content.take 2000)]) := by
  by_cases h : env.addCommentFails pid content <;>
    simp [tryCatchM, add_comment, h, M.pure]

/-- Claim C4 (confirmed): a trigger-stage task whose agent attempts all fail
(with a working in-progress write) makes `process_task` return `False` with
no escaping exception; the full trace is exactly the in-progress status
write, the retried adapter calls with their backoff sleeps, and one attempted
error-annotation write carrying the final attempt's error — in particular the
store never receives the done-stage write nor any rollback write, and the
annotation call is issued whether or not it fails (`tryCatchM` swallows
it). -/
theorem c4_exhausted_failure (notion : NotionEnv) (out : Nat → ClaudeResult)
    (settings : ProcSettings) (task : Task) (ip dn : TaskStatus) (tr : List Event)
    (htrig : AI_TRANSITIONS task.status = some (ip, dn))
    (hN : 1 ≤ settings.max_retries)
    (hip : notion.updateStatusFails task.page_id ip = false)
    (hfail : ∀ i, (out i).success = false) :
    process_task notion (pureClaude out) settings task tr =
      (Except.ok false,
       tr ++ Event.updateStatus task.page_id ip ::
         (retryTrace (triggerKind task.status) settings.retry_backoff_base 1
            settings.max_retries ++
          [Event.addComment task.page_id
            (("[dev-scheduler] Error: " ++ (out settings.max_retries).error).take 2000)])) := by
  have hst := trigger_of_some htrig
  obtain ⟨k, h1, h2, heq, hf, hs, hs2⟩ :=
    run_with_retries_aux_pure_char out task settings.max_retries settings.retry_backoff_base hst
      settings.max_retries 1 { success := false, output := "", error := "No attempts made" }
      (tr ++ [Event.updateStatus task.page_id ip]) hN (by omega)
  have hkN : k = settings.max_retries := hs2 (hfail _)
  have hidx : 1 + settings.max_retries - 1 = settings.max_retries := by omega
  rw [hkN, hidx] at heq
  simp only [process_task, htrig]
  rw [M.bind_apply, update_task_status_ok hip]
  simp only [run_with_retries]
  rw [M.bind_apply, heq]
  simp only [hfail, Bool.false_eq_true, if_false]
  rw [M.bind_apply, tryCatch_add_comment_ok]
  simp [M.pure, List.append_assoc]

/-- Witness for C4: under `max_retries = 2`, a constantly failing adapter
leaves exactly the in-progress write, two calls with one sleep, and the error
annotation. -/
theorem c4_witness :
    process_task ⟨fun _ _ => false, fun _ _ => false, fun _ _ _ => false⟩
        (pureClaude fun _ => { success := false, output := "", error := "boom" }) {}
        { page_id := "p", name := "T", status := TaskStatus.TO_PLAN } [] =
      (Except.ok false,
       [Event.updateStatus "p" TaskStatus.PLANNING,
        Event.agentCall AgentKind.planning 1, Event.sleep 2,
        Event.agentCall AgentKind.planning 2,
        Event.addComment "p" "[dev-scheduler] Error: boom"]) := by
  have h := c4_exhausted_failure ⟨fun _ _ => false, fun _ _ => false, fun _ _ _ => false⟩
      (fun _ => { success := false, output := "", error := "boom" }) {}
      { page_id := "p", name := "T", status := TaskStatus.TO_PLAN }
      TaskStatus.PLANNING TaskStatus.PLANNED [] rfl (by decide) rfl (fun _ => rfl)
  rw [h]
  have hstr : ("[dev-scheduler] Error: boom".take 2000) =
      "[dev-scheduler] Error: boom" := by
    rw [String.take_eq]
    decide
  simp [retryTrace, triggerKind, hstr]


theorem noraise_pure (a : α) : NoRaise (M.pure a) := fun tr => ⟨a, tr, rfl⟩

theorem noraise_emitM (e : Event) : NoRaise (emitM e) := fun tr => ⟨(), tr ++ [e], rfl⟩

theorem noraise_bind {x : M α} {f : α → M β} (hx : NoRaise x) (hf : ∀ a, NoRaise (f a)) :
    NoRaise (x >>= f) := by
  intro tr
  obtain ⟨a, tr1, h1⟩ := hx tr
  obtain ⟨b, tr2, h2⟩ := hf a tr1
  refine ⟨b, tr2, ?_⟩
  rw [M.bind_apply, h1]
  exact h2

theorem noraise_ite {c : Prop} [Decidable c] {x y : M β} (hx : NoRaise x) (hy : NoRaise y) :
    NoRaise (if c then x else y) := by
  by_cases h : c
  · rw [if_pos h]; exact hx
  · rw [if_neg h]; exact hy

theorem noraise_tryCatch_pure_unit (x : M Unit) :
    NoRaise (tryCatchM x fun _ => M.pure ()) := by
  intro tr
  rcases hx : x tr with ⟨res, tr1⟩
  cases res with
  | ok a =>
    cases a
    exact ⟨(), tr1, by simp only [tryCatchM, hx]⟩
  | error e => exact ⟨(), tr1, by simp only [tryCatchM, hx, M.pure]⟩

theorem noraise_update_task_status {env : NotionEnv} {pid : String} {st : TaskStatus}
    (h : env.updateStatusFails pid st = false) :
    NoRaise (update_task_status env pid st) := by
  intro tr
  exact ⟨(), tr ++ [Event.updateStatus pid st], by simp [update_task_status, h]⟩

theorem noraise_attemptOnce_pure (out : Nat → ClaudeResult) (task : Task) (a : Nat) :
    NoRaise (attemptOnce (pureClaude out) task a) := by
  intro tr
  simp only [attemptOnce, pureClaude]
  split_ifs <;> exact ⟨_, _, rfl⟩

theorem noraise_run_with_retries_aux_pure (out : Nat → ClaudeResult) (task : Task)
    (N : Nat) (B : ℚ) :
    ∀ (r a : Nat) (last : ClaudeResult),
      NoRaise (run_with_retries_aux (pureClaude out) task N B a r last) := by
  intro r
  induction r with
  | zero => intro a last; exact noraise_pure last
  | succ r ih =>
    intro a last
    simp only [run_with_retries_aux]
    apply noraise_bind (noraise_attemptOnce_pure out task a)
    intro res
    refine noraise_ite (noraise_pure res) (noraise_ite ?_ ?_)
    · exact noraise_bind (noraise_emitM _) fun _ => ih (a + 1) res
    · exact noraise_bind (noraise_pure _) fun _ => ih (a + 1) res

theorem noraise_run_with_retries_pure (out : Nat → ClaudeResult) (task : Task)
    (N : Nat) (B : ℚ) : NoRaise (run_with_retries (pureClaude out) task N B) := by
  simp only [run_with_retries]
  exact noraise_run_with_retries_aux_pure out task N B N 1 _

/-- Counterexample to C1 as stated: on the documented malformed-working-
directory failure path, `process_task` does not return a boolean — the
adapter's `ValueError` escapes uncaught to the caller (the retry loop and
`process_task` have no handler for it). -/
theorem c1_counterexample :
    process_task ⟨fun _ _ => false, fun _ _ => false, fun _ _ _ => false⟩
        (runnerIface {} ⟨id, fun _ => false⟩ (fun _ => SubprocessBehavior.timesOut)) {}
        { page_id := "p", name := "T", status := TaskStatus.TO_PLAN,
          project_path := "/missing" } [] =
      (Except.error (PyErr.valueError
        "Project path does not exist or is not a directory: /missing"),
       [Event.updateStatus "p" TaskStatus.PLANNING, Event.agentCall AgentKind.planning 1]) := by
  rfl

/-- Claim C1 as amended: `process_task` returns a boolean with no escaping
exception on the missing-trigger-mapping path, the agent-failure-after-
retries path and the best-effort annotation-failure paths (any adapter
outcomes, any annotation-write behaviour, as long as the two status writes
succeed and the adapter itself does not raise); but the two remaining
documented failure paths escape as exceptions: a malformed working directory
(see the counterexample) and a failing final done-stage write (third
conjunct). -/
theorem c1_amended (notion : NotionEnv) (out : Nat → ClaudeResult) (settings : ProcSettings)
    (task : Task) (tr : List Event) :
    (AI_TRANSITIONS task.status = none →
      process_task notion (pureClaude out) settings task tr = (Except.ok false, tr)) ∧
    (∀ ip dn, AI_TRANSITIONS task.status = some (ip, dn) →
      notion.updateStatusFails task.page_id ip = false →
      notion.updateStatusFails task.page_id dn = false →
      ∃ b tr', process_task notion (pureClaude out) settings task tr =
        (Except.ok b, tr')) ∧
    process_task
        ⟨fun _ st => decide (st = TaskStatus.PLANNED), fun _ _ => false, fun _ _ _ => false⟩
        (pureClaude fun _ => { success := true, output := "" }) {}
        { page_id := "p", name := "T", status := TaskStatus.TO_PLAN } [] =
      (Except.error (PyErr.notionError "pages.update failed"),
       [Event.updateStatus "p" TaskStatus.PLANNING, Event.agentCall AgentKind.planning 1,
        Event.updateStatus "p" TaskStatus.PLANNED]) := by
  refine ⟨?_, ?_, by rfl⟩
  · intro h
    simp [process_task, h, M.pure]
  · intro ip dn htrig hip hdn
    simp only [process_task, htrig]
    refine (noraise_bind (noraise_update_task_status hip) ?_) tr
    intro u
    refine noraise_bind (noraise_run_with_retries_pure out task _ _) ?_
    intro result
    apply noraise_ite
    · refine noraise_bind (noraise_ite ?_ ?_) ?_
      · exact noraise_tryCatch_pure_unit _
      · exact noraise_pure _
      · intro v
        refine noraise_bind (noraise_ite ?_ ?_) ?_
        · exact noraise_tryCatch_pure_unit _
        · exact noraise_pure _
        · intro w
          exact noraise_bind (noraise_update_task_status hdn) fun _ => noraise_pure _
    · exact noraise_bind (noraise_tryCatch_pure_unit _) fun _ => noraise_pure _

/-- Witness for the amended C1: a non-trigger task returns `False`, and a
trigger task whose every attempt fails still produces an `Except.ok`
result — no exception escapes. -/
theorem c1_amended_witness :
    process_task ⟨fun _ _ => false, fun _ _ => false, fun _ _ _ => false⟩
        (pureClaude fun _ => { success := false, output := "", error := "boom" }) {}
        { page_id := "q", name := "U", status := TaskStatus.REQUIREMENT } [] =
      (Except.ok false, []) ∧
    (process_task ⟨fun _ _ => false, fun _ _ => false, fun _ _ _ => false⟩
        (pureClaude fun _ => { success := false, output := "", error := "boom" }) {}
        { page_id := "q", name := "U", status := TaskStatus.TO_PLAN } []).1 ≠
      Except.error (PyErr.valueError "Project path contains null bytes") := by
  constructor
  · exact (c1_amended ⟨fun _ _ => false, fun _ _ => false, fun _ _ _ => false⟩
      (fun _ => { success := false, output := "", error := "boom" }) {}
      { page_id := "q", name := "U", status := TaskStatus.REQUIREMENT } []).1 rfl
  · obtain ⟨b, tr', h⟩ := (c1_amended
        ⟨fun _ _ => false, fun _ _ => false, fun _ _ _ => false⟩
        (fun _ => { success := false, output := "", error := "boom" }) {}
        { page_id := "q", name := "U", status := TaskStatus.TO_PLAN } []).2.1
        TaskStatus.PLANNING TaskStatus.PLANNED rfl rfl rfl
    rw [h]
    simp


theorem poll_cycle_loop_stop (notion : NotionEnv) (claude : ClaudeIface)
    (settings : ProcSettings) (running : Nat → Bool) (k : Nat)
    (hstop : ∀ j, k ≤ j → running j = false) :
    ∀ (tasks : List Task) (i : Nat),
      poll_cycle_loop notion claude settings running i tasks =
        poll_cycle_loop notion claude settings running i (tasks.take (k - i)) := by
  intro tasks
  induction tasks with
  | nil => intro i; simp [List.take_nil]
  | cons t ts ih =>
    intro i
    by_cases hik : i < k
    · have hk : k - i = (k - (i + 1)) + 1 := by omega
      rw [hk]
      simp only [List.take_succ_cons, poll_cycle_loop]
      by_cases hrun : running i
      · rw [if_pos hrun, if_pos hrun, ih (i + 1)]
      · rw [if_neg hrun, if_neg hrun]
    · have hk : k - i = 0 := by omega
      rw [hk]
      simp only [List.take_zero, poll_cycle_loop]
      have hrun : running i = false := hstop i (by omega)
      rw [hrun]
      simp

/-- Claim C8 (confirmed): if the stop flag is (and stays) false from batch
position `k` on — a stop request observed after the scheduler finished task
`k` of the cycle — then the whole poll cycle behaves exactly as if the batch
had only its first `k` tasks: identical processed-task list, identical trace
(no agent invocations and no store writes for the abandoned tasks). -/
theorem c8_stop_abandons_batch (notion : NotionEnv) (claude : ClaudeIface)
    (settings : ProcSettings) (running : Nat → Bool) (k : Nat) (tasks : List Task)
    (hstop : ∀ j, k ≤ j → running j = false) :
    poll_cycle_loop notion claude settings running 0 tasks =
      poll_cycle_loop notion claude settings running 0 (tasks.take k) := by
  have h := poll_cycle_loop_stop notion claude settings running k hstop tasks 0
  simpa using h

/-- Witness for C8: stopping after the first task of a two-task batch makes
the cycle identical to a one-task cycle. -/
theorem c8_witness :
    poll_cycle_loop ⟨fun _ _ => false, fun _ _ => false, fun _ _ _ => false⟩
        (pureClaude fun _ => { success := true, output := "ok" }) {}
        (fun j => decide (j < 1)) 0
        [{ page_id := "p1", name := "A", status := TaskStatus.TO_PLAN },
         { page_id := "p2", name := "B", status := TaskStatus.TO_PLAN }] =
      poll_cycle_loop ⟨fun _ _ => false, fun _ _ => false, fun _ _ _ => false⟩
        (pureClaude fun _ => { success := true, output := "ok" }) {}
        (fun j => decide (j < 1)) 0
        [{ page_id := "p1", name := "A", status := TaskStatus.TO_PLAN }] := by
  have h := c8_stop_abandons_batch ⟨fun _ _ => false, fun _ _ => false, fun _ _ _ => false⟩
      (pureClaude fun _ => { success := true, output := "ok" }) {}
      (fun j => decide (j < 1)) 1
      [{ page_id := "p1", name := "A", status := TaskStatus.TO_PLAN },
       { page_id := "p2", name := "B", status := TaskStatus.TO_PLAN }]
      (by intro j hj; simp; omega)
  simpa using h

end DevScheduler
